import Mathlib

/-!
Verification development for the drift-correction module of snomtools
(src/snomtools/evaluation/driftcorrection.py).

The numeric entries of image arrays are modelled as integers (the source
casts to float32; every claim settled here depends only on comparisons and
ring operations of the sample values, never on divisions between them, so
integer entries are a faithful discrete model of the samples and keep every
definition kernel-computable).  The logarithm used by the sub-pixel
refinement (np.log) maps into an abstract field through a parameter
lg : Int -> K; claim-facing statements instantiate K with the real numbers
and lg with Real.log.

The external correlation primitive cv.matchTemplate is a collaborator
consumed as a black box (spec section 6); its per-cell scores are a
parameter P of the development.  Its documented output shape
(slice - template + 1 per dimension) and its shape/method error behavior
are part of the wrapper matchTemplate below.  The documented score formula
for the raw sum-of-squared-differences method TM_SQDIFF is given concretely
as sqdiffE, for the claims that depend on actual score values.

cv.minMaxLoc scans the surface in row-major order, keeps the first strict
extremum, and reports locations as points (x, y) = (column, row); that
convention is modelled exactly, because the source feeds those points
unchanged into subpixel_peak, which indexes the surface with x as the
first axis.
-/

/-- Python-level failure modes relevant to this module.  ShapeError is the
spec name for the cv2 assertion on template/slice shapes, ConfigurationError
the spec name for a NameError raised by eval on an unknown method string or
a cv2 rejection of an invalid method code. -/
inductive PyError where
  | ShapeError
  | ConfigurationError
  | TypeError
  | IndexError
  | KeyError
  | AttributeError
  deriving DecidableEq, Repr

/-- A 2-D numeric array: row count, column count, and an entry function. -/
structure Mat where
  rows : Nat
  cols : Nat
  entry : Nat → Nat → ℤ

/-- A 3-D numeric array (the raw buffer of the projected dataset). -/
structure Arr3 where
  d0 : Nat
  d1 : Nat
  d2 : Nat
  entry : Nat → Nat → Nat → ℤ

/-- shape[k] of a 3-D array, for k < 3. -/
def Arr3.dim (A : Arr3) (k : Nat) : Nat :=
  if k = 0 then A.d0 else if k = 1 then A.d1 else A.d2

/-- A Python value that can be passed as an axis identifier: None, a string
label, or a (nonnegative) integer index.  Negative Python indices are not
exercised by any claim and are left out of the model. -/
inductive PyVal where
  | none
  | str (s : String)
  | int (n : Nat)
  deriving DecidableEq, Repr

/-- is_ok test on Except results. -/
def exOk {α : Type} : Except PyError α → Bool
  | Except.ok _ => true
  | Except.error _ => false

instance {α : Type} [DecidableEq α] : DecidableEq (Except PyError α) := fun a b =>
  match a, b with
  | Except.error e, Except.error f =>
    if h : e = f then Decidable.isTrue (by rw [h])
    else Decidable.isFalse fun hc => h (Except.error.inj hc)
  | Except.error _, Except.ok _ => Decidable.isFalse fun hc => Except.noConfusion hc
  | Except.ok _, Except.error _ => Decidable.isFalse fun hc => Except.noConfusion hc
  | Except.ok x, Except.ok y =>
    if h : x = y then Decidable.isTrue (by rw [h])
    else Decidable.isFalse fun hc => h (Except.ok.inj hc)

/-- Row-major scan order of all (row, column) positions of a matrix,
as used by cv.minMaxLoc. -/
def scanRC (m : Mat) : List (Nat × Nat) :=
  (List.range m.rows).flatMap fun r => (List.range m.cols).map fun c => (r, c)

/-- One update step of the running minimum: replace the current best only on
a strictly smaller value, so the first occurrence of the minimum is kept
(cv.minMaxLoc behavior). -/
def pickMinF (v : Nat × Nat → ℤ) (b p : Nat × Nat) : Nat × Nat :=
  if v p < v b then p else b

/-- One update step of the running maximum: replace only on a strictly
larger value (first occurrence kept). -/
def pickMaxF (v : Nat × Nat → ℤ) (b p : Nat × Nat) : Nat × Nat :=
  if v b < v p then p else b

/-- (row, column) of the first global minimum of a matrix in row-major scan
order (cv.minMaxLoc min_loc, with coordinates swapped to (row, column)). -/
def minLocRC (m : Mat) : Nat × Nat :=
  (scanRC m).foldl (pickMinF fun p => m.entry p.1 p.2) (0, 0)

/-- (row, column) of the first global maximum of a matrix in row-major scan
order (cv.minMaxLoc max_loc, with coordinates swapped to (row, column)). -/
def maxLocRC (m : Mat) : Nat × Nat :=
  (scanRC m).foldl (pickMaxF fun p => m.entry p.1 p.2) (0, 0)

/-- Model of the Python eval call on the method string (source line 67).
The six documented method names evaluate to the cv2 integer constants
TM_SQDIFF = 0, TM_SQDIFF_NORMED = 1, TM_CCORR = 2, TM_CCORR_NORMED = 3,
TM_CCOEFF = 4, TM_CCOEFF_NORMED = 5.  A decimal numeral string evaluates to
the corresponding integer (Python eval evaluates any expression; numerals
are the simplest such inputs and the only ones needed here).  Any other
string raises NameError, modelled as Option.none and surfaced as
ConfigurationError by template_matching. -/
def evalMethod (s : String) : Option Nat :=
  if s = "cv.TM_SQDIFF" then some 0
  else if s = "cv.TM_SQDIFF_NORMED" then some 1
  else if s = "cv.TM_CCORR" then some 2
  else if s = "cv.TM_CCORR_NORMED" then some 3
  else if s = "cv.TM_CCOEFF" then some 4
  else if s = "cv.TM_CCOEFF_NORMED" then some 5
  else if s = "0" then some 0
  else if s = "1" then some 1
  else if s = "2" then some 2
  else if s = "3" then some 3
  else if s = "4" then some 4
  else if s = "5" then some 5
  else Option.none

/-- The per-cell scores of the external correlation primitive, as a
parameter: method code, slice, template, row, column.  The spec treats the
primitive as a black box; theorems quantify over P, and concrete
instantiations are used where a claim depends on actual score values. -/
def CorrPrimitive : Type := Nat → Mat → Mat → Nat → Nat → ℤ

/-- Documented score formula of method TM_SQDIFF (code 0): the sum of
squared differences between the template and the slice patch at offset
(row r, column c). -/
def sqdiffE (img tmpl : Mat) (r c : Nat) : ℤ :=
  (Finset.range tmpl.rows).sum fun i =>
    (Finset.range tmpl.cols).sum fun j =>
      (img.entry (r + i) (c + j) - tmpl.entry i j) ^ 2

/-- The correlation surface for a given primitive and method code; its shape
is slice - template + 1 per dimension (collaborator contract, spec
section 3 and 6). -/
def surfaceOf (P : CorrPrimitive) (code : Nat) (img tmpl : Mat) : Mat :=
  ⟨img.rows - tmpl.rows + 1, img.cols - tmpl.cols + 1, P code img tmpl⟩

/-- Model of cv.matchTemplate: rejects an invalid method code
(cv2 error, modelled ConfigurationError), rejects empty arrays and a
template exceeding the slice in either dimension (cv2 assertion, spec name
ShapeError), and otherwise returns the correlation surface. -/
def matchTemplate (P : CorrPrimitive) (code : Nat) (img tmpl : Mat) :
    Except PyError Mat :=
  if 6 ≤ code then Except.error PyError.ConfigurationError
  else if img.rows = 0 ∨ img.cols = 0 ∨ tmpl.rows = 0 ∨ tmpl.cols = 0 then
    Except.error PyError.ShapeError
  else if img.rows < tmpl.rows ∨ img.cols < tmpl.cols then
    Except.error PyError.ShapeError
  else Except.ok (surfaceOf P code img tmpl)

/-- NumPy integer indexing of a 2-D array entry: an index i with
-rows <= i < rows is accepted, a negative index wrapping to the opposite
edge (i % rows is the Python modulus); anything else raises IndexError. -/
def npGet (m : Mat) (i j : ℤ) : Except PyError ℤ :=
  if -(m.rows : ℤ) ≤ i ∧ i < (m.rows : ℤ) ∧ -(m.cols : ℤ) ≤ j ∧ j < (m.cols : ℤ) then
    Except.ok (m.entry (i % (m.rows : ℤ)).toNat ((j % (m.cols : ℤ)).toNat))
  else Except.error PyError.IndexError

/-- Drift.subpixel_peak (source lines 91-105), translated read for read.
max_var is the point reported by cv.minMaxLoc, so max_var.1 is the x
(column) coordinate, yet the source uses it as the first index into the
surface; the translation repeats that exactly.  np.log is the parameter lg;
np.log of a non-positive value emits nan or -inf without raising, so no
domain guard appears here, exactly as in the source. -/
def subpixel_peak {K : Type} [Field K] (lg : ℤ → K) (max_var : Nat × Nat)
    (results : Mat) : Except PyError (K × K) :=
  match npGet results ((max_var.1 : ℤ) - 1) (max_var.2 : ℤ) with
  | Except.error e => Except.error e
  | Except.ok a =>
    match npGet results ((max_var.1 : ℤ) + 1) (max_var.2 : ℤ) with
    | Except.error e => Except.error e
    | Except.ok b =>
      match npGet results (max_var.1 : ℤ) (max_var.2 : ℤ) with
      | Except.error e => Except.error e
      | Except.ok c =>
        match npGet results (max_var.1 : ℤ) ((max_var.2 : ℤ) - 1) with
        | Except.error e => Except.error e
        | Except.ok d =>
          match npGet results (max_var.1 : ℤ) ((max_var.2 : ℤ) + 1) with
          | Except.error e => Except.error e
          | Except.ok e2 =>
            Except.ok
              ((max_var.1 : K) + (lg a - lg b) / (2 * lg a + 2 * lg b - 4 * lg c),
               (max_var.2 : K) + (lg d - lg e2) / (2 * lg d - 4 * lg c + 2 * lg e2))

/-- Drift.template_matching (source lines 63-88): evaluate the method
string, run the correlation primitive, locate both extrema, and return the
minimum location for the SQDIFF family (codes 0 and 1) and the maximum
location otherwise, sub-pixel refined when requested.  Locations are
returned as (x, y) = (column, row), the cv.minMaxLoc point convention. -/
def template_matching {K : Type} [Field K] (lg : ℤ → K) (P : CorrPrimitive)
    (array template : Mat) (method : String) (subpixel : Bool) :
    Except PyError (K × K) :=
  match evalMethod method with
  | Option.none => Except.error PyError.ConfigurationError
  | some code =>
    match matchTemplate P code array template with
    | Except.error e => Except.error e
    | Except.ok res =>
      let min_loc : Nat × Nat := ((minLocRC res).2, (minLocRC res).1)
      let max_loc : Nat × Nat := ((maxLocRC res).2, (maxLocRC res).1)
      if code = 0 ∨ code = 1 then
        if subpixel then subpixel_peak lg min_loc res
        else Except.ok ((min_loc.1 : K), (min_loc.2 : K))
      else
        if subpixel then subpixel_peak lg max_loc res
        else Except.ok ((max_loc.1 : K), (max_loc.2 : K))

/-- The 2-D slice data.data[slice_] taken by template_matching_stack at
stack index i along axis k of a 3-D array (the slice tuple is [:, :] with i
inserted at position k). -/
def sliceAt (A : Arr3) (k i : Nat) : Mat :=
  if k = 0 then ⟨A.d1, A.d2, fun a b => A.entry i a b⟩
  else if k = 1 then ⟨A.d0, A.d2, fun a b => A.entry a i b⟩
  else ⟨A.d0, A.d1, fun a b => A.entry a b i⟩

/-- The slice loop of template_matching_stack: indices 0, ..., n-1 in
order, each result appended to the list, the first failure aborting the
whole computation (a raised exception discards the partial list). -/
def stackLoop {α : Type} (f : Nat → Except PyError α) : Nat → Except PyError (List α)
  | 0 => Except.ok []
  | n + 1 =>
    match stackLoop f n with
    | Except.error e => Except.error e
    | Except.ok l =>
      match f n with
      | Except.error e => Except.error e
      | Except.ok v => Except.ok (l ++ [v])

/-- Drift.template_matching_stack (source lines 52-60).  The stackAxisID
argument is used raw: data.shape[stackAxisID] raises TypeError for None and
for a string label, IndexError for an integer out of range, and otherwise
drives the per-slice loop. -/
def template_matching_stack {K : Type} [Field K] (lg : ℤ → K)
    (P : CorrPrimitive) (data : Arr3) (template : Mat) (stackAxisID : PyVal)
    (method : String) (subpixel : Bool) : Except PyError (List (K × K)) :=
  match stackAxisID with
  | PyVal.int k =>
    if k < 3 then
      stackLoop (fun i => template_matching lg P (sliceAt data k i) template method subpixel)
        (data.dim k)
    else Except.error PyError.IndexError
  | _ => Except.error PyError.TypeError

/-- A labeled 3-axis dataset.  Modelled from the spec: the container class
snomtools.data.datasets.DataSet is not under src/; per the spec it is a
labeled multi-dimensional array exposing axis lookup by label or index,
projection by axis set, and raw buffer access (spec section 6).  Labels are
a total function on axis positions; only positions 0, 1, 2 are meaningful. -/
structure DataSet where
  labels : Nat → String
  arr : Arr3

/-- Modelled from the spec: DataSet.get_axis_index resolves a string label
to its axis position (KeyError when absent) and validates an integer index
(IndexError when out of range). -/
def get_axis_index (ds : DataSet) (v : PyVal) : Except PyError Nat :=
  match v with
  | PyVal.str s =>
    if ds.labels 0 = s then Except.ok 0
    else if ds.labels 1 = s then Except.ok 1
    else if ds.labels 2 = s then Except.ok 2
    else Except.error PyError.KeyError
  | PyVal.int n => if n < 3 then Except.ok n else Except.error PyError.IndexError
  | PyVal.none => Except.error PyError.KeyError

/-- Modelled from the spec: DataSet.project_nd reorders the dataset so that
the requested axes a, b, c become axes 0, 1, 2. -/
def project3 (ds : DataSet) (a b c : Nat) : DataSet :=
  { labels := fun m => if m = 0 then ds.labels a else if m = 1 then ds.labels b else ds.labels c
    arr :=
      { d0 := ds.arr.dim a
        d1 := ds.arr.dim b
        d2 := ds.arr.dim c
        entry := fun i j k =>
          let sel : Nat → Nat := fun t =>
            if a = t then i else if b = t then j else if c = t then k else 0
          ds.arr.entry (sel 0) (sel 1) (sel 2) } }

/-- Drift.extract_3Ddata (source lines 108-112): project the dataset onto
(stack axis, x axis, y axis). -/
def extract_3Ddata (ds : DataSet) (stackAxisID xAxisID yAxisID : Nat) : DataSet :=
  project3 ds stackAxisID xAxisID yAxisID

/-- A labeled 2-axis dataset for the template argument (same collaborator
contract as DataSet, with two axes). -/
structure DataSet2 where
  labels : Nat → String
  mat : Mat

/-- Modelled from the spec: axis lookup on a 2-axis dataset. -/
def get_axis_index2 (t : DataSet2) (v : PyVal) : Except PyError Nat :=
  match v with
  | PyVal.str s =>
    if t.labels 0 = s then Except.ok 0
    else if t.labels 1 = s then Except.ok 1
    else Except.error PyError.KeyError
  | PyVal.int n => if n < 2 then Except.ok n else Except.error PyError.IndexError
  | PyVal.none => Except.error PyError.KeyError

/-- Modelled from the spec: projection of a 2-axis dataset onto its axes in
the requested order (the identity, or the transpose when the order is
swapped). -/
def project2 (t : DataSet2) (a b : Nat) : Mat :=
  if a = 0 ∧ b = 1 then t.mat
  else if a = 1 ∧ b = 0 then ⟨t.mat.cols, t.mat.rows, fun r c => t.mat.entry c r⟩
  else t.mat

/-- Drift.extract_templatedata (source lines 115-122): re-resolve the axis
identifiers (the constructor passes already-resolved integer indices) and
project onto (x, y). -/
def extract_templatedata (t : DataSet2) (xAxisID yAxisID : PyVal) :
    Except PyError Mat :=
  match get_axis_index2 t xAxisID with
  | Except.error e => Except.error e
  | Except.ok xi =>
    match get_axis_index2 t yAxisID with
    | Except.error e => Except.error e
    | Except.ok yi => Except.ok (project2 t xi yi)

/-- Modelled from the spec: the ROI class of snomtools.data.datasets (not
under src/) floors fractional by_index limits to integer bounds (spec
section 4.2: lo = floor(dim * 2/5), hi = floor(dim * 3/5)). -/
def roiFloor (q : ℚ) : Nat := (⌊q⌋).toNat

/-- The central region of the dataset between per-axis bounds, projected
onto the (x, y) axes.  Modelled from the spec: the projection of the ROI
onto the two spatial axes is realized as the slice at index 0 of the
remaining axis (the reference slice, spec section 4.2). -/
def roiRegion (ds : DataSet) (xi yi xl xr yl yr : Nat) : Mat :=
  ⟨xr - xl, yr - yl, fun a b =>
    let pos : Nat → Nat := fun t =>
      if t = xi then xl + a else if t = yi then yl + b else 0
    ds.arr.entry (pos 0) (pos 1) (pos 2)⟩

/-- Drift.guess_templatedata (source lines 125-136): resolve the spatial
axes, compute the fractional limits dim*2/5 and dim*3/5 (true division, as
in the source), and build the ROI; the flooring of the limits is the
spec-modelled ROI behavior (roiFloor). -/
def guess_templatedata (ds : DataSet) (xAxisID yAxisID : PyVal) :
    Except PyError Mat :=
  match get_axis_index ds xAxisID with
  | Except.error e => Except.error e
  | Except.ok xi =>
    match get_axis_index ds yAxisID with
    | Except.error e => Except.error e
    | Except.ok yi =>
      Except.ok (roiRegion ds xi yi
        (roiFloor ((ds.arr.dim xi : ℚ) * 2 / 5))
        (roiFloor ((ds.arr.dim xi : ℚ) * 3 / 5))
        (roiFloor ((ds.arr.dim yi : ℚ) * 2 / 5))
        (roiFloor ((ds.arr.dim yi : ℚ) * 3 / 5)))

/-- Axis resolution of the constructor (source lines 19-30): None falls
back to the default label, anything else is passed to get_axis_index. -/
def resolveAxis (ds : DataSet) (v : PyVal) (dflt : String) : Except PyError Nat :=
  match v with
  | PyVal.none => get_axis_index ds (PyVal.str dflt)
  | v => get_axis_index ds v

/-- Axis resolution against the template dataset (source lines 37-44). -/
def resolveAxis2 (t : DataSet2) (v : PyVal) (dflt : String) : Except PyError Nat :=
  match v with
  | PyVal.none => get_axis_index2 t (PyVal.str dflt)
  | v => get_axis_index2 t v

/-- The data-preparation part of Drift.__init__ (source lines 17-47):
resolve the three axes, project the dataset to 3-D, and read or guess the
template.  Returns the raw 3-D buffer (get_datafield(0)) and the template
array. -/
def Drift_pre (ds : DataSet) (template : Option DataSet2)
    (stackAxisID xAxisID yAxisID : PyVal) : Except PyError (Arr3 × Mat) :=
  match resolveAxis ds stackAxisID "delay" with
  | Except.error e => Except.error e
  | Except.ok dstack =>
    match resolveAxis ds xAxisID "x" with
    | Except.error e => Except.error e
    | Except.ok dx =>
      match resolveAxis ds yAxisID "y" with
      | Except.error e => Except.error e
      | Except.ok dy =>
        let data3 := extract_3Ddata ds dstack dx dy
        match template with
        | some t =>
          match resolveAxis2 t xAxisID "x" with
          | Except.error e => Except.error e
          | Except.ok tx =>
            match resolveAxis2 t yAxisID "y" with
            | Except.error e => Except.error e
            | Except.ok ty =>
              match extract_templatedata t (PyVal.int tx) (PyVal.int ty) with
              | Except.error e => Except.error e
              | Except.ok tm => Except.ok (data3.arr, tm)
        | Option.none =>
          match guess_templatedata ds (PyVal.int dx) (PyVal.int dy) with
          | Except.error e => Except.error e
          | Except.ok tm => Except.ok (data3.arr, tm)

/-- The object state produced by a completed construction. -/
structure DriftObj (K : Type) where
  data3 : Arr3
  template : Mat
  drift : List (K × K)

/-- Drift.__init__ (source lines 12-50).  The subpixel and method
parameters are accepted but never referenced in the body; line 50 calls
template_matching_stack without them, so that call uses the defaults of
template_matching_stack itself, method = cv.TM_CCOEFF_NORMED and
subpixel = True, and passes the raw stackAxisID argument, not the resolved
index.  A missing data argument leaves self.data unset and line 50 raises
AttributeError. -/
def Drift_init {K : Type} [Field K] (lg : ℤ → K) (P : CorrPrimitive)
    (data : Option DataSet) (template : Option DataSet2)
    (stackAxisID xAxisID yAxisID : PyVal) (subpixel : Bool) (method : String) :
    Except PyError (DriftObj K) :=
  match data with
  | Option.none => Except.error PyError.AttributeError
  | some ds =>
    match Drift_pre ds template stackAxisID xAxisID yAxisID with
    | Except.error e => Except.error e
    | Except.ok pr =>
      match template_matching_stack lg P pr.1 pr.2 stackAxisID "cv.TM_CCOEFF_NORMED" true with
      | Except.error e => Except.error e
      | Except.ok dr => Except.ok ⟨pr.1, pr.2, dr⟩

/-- True exactly when a PyVal is a valid integer index into the 3 axes. -/
def validStackAxis : PyVal → Bool
  | PyVal.int k => decide (k < 3)
  | _ => false

/-- The state threaded through the stateful reading of the stack loop: the
image stack and the template, both owned by the caller. -/
def Store : Type := Arr3 × Mat

/-- State-passing version of the slice loop: every slice and template read
goes through the current store, so that the absence of writes is a theorem
rather than a convention. -/
def stLoopAux {K : Type} [Field K] (lg : ℤ → K) (P : CorrPrimitive)
    (method : String) (subpixel : Bool) (k : Nat) :
    Nat → Store → Except PyError (List (K × K)) × Store
  | 0, σ => (Except.ok [], σ)
  | n + 1, σ =>
    match stLoopAux lg P method subpixel k n σ with
    | (Except.error e, σ1) => (Except.error e, σ1)
    | (Except.ok l, σ1) =>
      match template_matching lg P (sliceAt σ1.1 k n) σ1.2 method subpixel with
      | Except.error e => (Except.error e, σ1)
      | Except.ok v => (Except.ok (l ++ [v]), σ1)

/-- State-passing version of template_matching_stack; the result pairs the
drift series with the final state of stack and template. -/
def tm_stack_st {K : Type} [Field K] (lg : ℤ → K) (P : CorrPrimitive)
    (stackAxisID : PyVal) (method : String) (subpixel : Bool) (σ : Store) :
    Except PyError (List (K × K)) × Store :=
  match stackAxisID with
  | PyVal.int k =>
    if k < 3 then stLoopAux lg P method subpixel k (σ.1.dim k) σ
    else (Except.error PyError.IndexError, σ)
  | _ => (Except.error PyError.TypeError, σ)

/-- State-passing version of a single template_matching call on a store
holding the slice and the template. -/
def tm_st {K : Type} [Field K] (lg : ℤ → K) (P : CorrPrimitive)
    (method : String) (subpixel : Bool) (τ : Mat × Mat) :
    Except PyError (K × K) × (Mat × Mat) :=
  (template_matching lg P τ.1 τ.2 method subpixel, τ)

/-- The surface has its (weak) global minimum at position p. -/
def IsMinAt (S : Mat) (p : Nat × Nat) : Prop :=
  ∀ r, r < S.rows → ∀ c, c < S.cols → S.entry p.1 p.2 ≤ S.entry r c

/-- The surface has its strict, hence unique, global minimum at p. -/
def StrictMinAt (S : Mat) (p : Nat × Nat) : Prop :=
  p.1 < S.rows ∧ p.2 < S.cols ∧
    ∀ r, r < S.rows → ∀ c, c < S.cols → (r, c) ≠ p → S.entry p.1 p.2 < S.entry r c

/-- The surface has its (weak) global maximum at position p. -/
def IsMaxAt (S : Mat) (p : Nat × Nat) : Prop :=
  ∀ r, r < S.rows → ∀ c, c < S.cols → S.entry r c ≤ S.entry p.1 p.2

/-- The surface has its strict, hence unique, global maximum at p. -/
def StrictMaxAt (S : Mat) (p : Nat × Nat) : Prop :=
  p.1 < S.rows ∧ p.2 < S.cols ∧
    ∀ r, r < S.rows → ∀ c, c < S.cols → (r, c) ≠ p → S.entry r c < S.entry p.1 p.2

/-- The slice contains the template at row offset r0 and column offset c0
(displacement (x, y) = (c0, r0) in the minMaxLoc point convention). -/
def containsAt (img tmpl : Mat) (r0 c0 : Nat) : Prop :=
  r0 + tmpl.rows ≤ img.rows ∧ c0 + tmpl.cols ≤ img.cols ∧
    ∀ i, i < tmpl.rows → ∀ j, j < tmpl.cols →
      img.entry (r0 + i) (c0 + j) = tmpl.entry i j

instance (img tmpl : Mat) (r0 c0 : Nat) : Decidable (containsAt img tmpl r0 c0) := by
  unfold containsAt
  infer_instance

/-- A trivial logarithm stand-in for witnesses computed over the rationals;
the error behavior of the code never depends on the logarithm values. -/
def lg0 : ℤ → ℚ := fun _ => 0

/-- A correlation primitive whose TM_SQDIFF channel (code 0) follows the
documented sum-of-squared-differences formula; the other channels are not
exercised where score values matter and are set to 0. -/
def P_sq : CorrPrimitive := fun code img tmpl r c =>
  if code = 0 then sqdiffE img tmpl r c else 0

/-- A matrix given by a list of rows (row-major literals). -/
def matOf (l : List (List ℤ)) : Mat :=
  ⟨l.length, (l.getD 0 []).length, fun r c => (l.getD r []).getD c 0⟩


/-- Concrete 3x3 surface with strictly positive entries, used as witness
input for the sub-pixel formula. -/
def S0 : Mat := ⟨3, 3, fun r c => (r : ℤ) + 2 * c + 1⟩

/-- Concrete 2x2 all-zero slice (tie case: the template occurs at every
offset). -/
def arrT : Mat := ⟨2, 2, fun _ _ => 0⟩

/-- Concrete 1x1 all-zero template. -/
def tmpl0 : Mat := ⟨1, 1, fun _ _ => 0⟩

/-- Concrete 3x3 slice containing tmpl1 exactly once, at row 1, column 2. -/
def arrU : Mat := ⟨3, 3, fun r c => if r = 1 ∧ c = 2 then 1 else 0⟩

/-- Concrete 1x1 template with entry 1. -/
def tmpl1 : Mat := ⟨1, 1, fun _ _ => 1⟩

/-- Concrete 3x3 slice whose TM_SQDIFF surface has its minimum at row 1,
column 0, i.e. on the border of the surface. -/
def arrB : Mat := matOf [[3, 4, 3], [1, 2, 3], [2, 3, 3]]

/-- The TM_SQDIFF correlation surface of arrB against tmpl1. -/
def surfB : Mat := surfaceOf P_sq 0 arrB tmpl1

/-- Concrete 1x3x3 all-zero stack. -/
def A0 : Arr3 := ⟨1, 3, 3, fun _ _ _ => 0⟩

/-- Concrete 1x2x2 all-zero stack (slices smaller than tmplBig). -/
def A1 : Arr3 := ⟨1, 2, 2, fun _ _ _ => 0⟩

/-- Concrete 3x3 all-zero template, larger than the 2x2 slices of A1. -/
def tmplBig : Mat := ⟨3, 3, fun _ _ => 0⟩

/-- Concrete dataset with the standard axis labels delay, x, y and a
1x3x3 buffer. -/
def ds0 : DataSet :=
  ⟨fun n => if n = 0 then "delay" else if n = 1 then "x" else "y",
   ⟨1, 3, 3, fun _ a b => (a : ℤ) + b⟩⟩

/-- Concrete 2-axis template dataset with labels x, y. -/
def t0 : DataSet2 := ⟨fun n => if n = 0 then "x" else "y", tmpl0⟩

/-- Concrete correlation primitive producing, on a 3x3 surface, a strict
interior maximum at row 1, column 1. -/
def P0 : CorrPrimitive := fun _ _ _ r c => if r = 1 ∧ c = 1 then 2 else 1

/-! Helper lemmas: the row-major scan and the first-strict-extremum fold. -/

theorem mem_scanRC {m : Mat} {p : Nat × Nat} :
    p ∈ scanRC m ↔ p.1 < m.rows ∧ p.2 < m.cols := by
  cases p with
  | mk r c =>
    unfold scanRC
    constructor
    · intro h
      rcases List.mem_flatMap.mp h with ⟨a, ha, hmem⟩
      rcases List.mem_map.mp hmem with ⟨cc, hcc, heq⟩
      cases heq
      exact ⟨List.mem_range.mp ha, List.mem_range.mp hcc⟩
    · rintro ⟨hr, hc⟩
      exact List.mem_flatMap.mpr
        ⟨r, List.mem_range.mpr hr, List.mem_map.mpr ⟨c, List.mem_range.mpr hc, rfl⟩⟩

theorem pickMinF_le_left (v : Nat × Nat → ℤ) (b p : Nat × Nat) :
    v (pickMinF v b p) ≤ v b := by
  unfold pickMinF
  by_cases h : v p < v b
  · rw [if_pos h]; exact le_of_lt h
  · rw [if_neg h]

theorem pickMinF_le_right (v : Nat × Nat → ℤ) (b p : Nat × Nat) :
    v (pickMinF v b p) ≤ v p := by
  unfold pickMinF
  by_cases h : v p < v b
  · rw [if_pos h]
  · rw [if_neg h]; exact le_of_not_lt h

theorem foldl_pickMinF_le (v : Nat × Nat → ℤ) :
    ∀ (l : List (Nat × Nat)) (b : Nat × Nat),
      v (l.foldl (pickMinF v) b) ≤ v b ∧
        ∀ p ∈ l, v (l.foldl (pickMinF v) b) ≤ v p := by
  intro l
  induction l with
  | nil => intro b; exact ⟨le_refl _, by intro p hp; cases hp⟩
  | cons q t ih =>
    intro b
    have h := ih (pickMinF v b q)
    refine ⟨le_trans h.1 (pickMinF_le_left v b q), ?_⟩
    intro p hp
    rcases List.mem_cons.mp hp with hpq | hpt
    · subst hpq
      exact le_trans h.1 (pickMinF_le_right v b p)
    · exact h.2 p hpt

theorem foldl_pickMinF_mem (v : Nat × Nat → ℤ) :
    ∀ (l : List (Nat × Nat)) (b : Nat × Nat),
      l.foldl (pickMinF v) b = b ∨ l.foldl (pickMinF v) b ∈ l := by
  intro l
  induction l with
  | nil => intro b; exact Or.inl rfl
  | cons q t ih =>
    intro b
    rw [List.foldl_cons]
    rcases ih (pickMinF v b q) with h | h
    · rw [h]
      unfold pickMinF
      by_cases hc : v q < v b
      · rw [if_pos hc]; exact Or.inr (List.mem_cons_self _ _)
      · rw [if_neg hc]; exact Or.inl rfl
    · exact Or.inr (List.mem_cons_of_mem _ h)

theorem foldl_pickMinF_unique (v : Nat × Nat → ℤ) :
    ∀ (l : List (Nat × Nat)) (b u : Nat × Nat),
      (u = b ∨ u ∈ l) →
      (∀ p, (p = b ∨ p ∈ l) → p ≠ u → v u < v p) →
      l.foldl (pickMinF v) b = u := by
  intro l
  induction l with
  | nil =>
    intro b u hu _
    rcases hu with h | h
    · exact h.symm
    · cases h
  | cons q t ih =>
    intro b u hu hlt
    rw [List.foldl_cons]
    have hbq : pickMinF v b q = b ∨ pickMinF v b q = q := by
      unfold pickMinF
      by_cases hc : v q < v b
      · rw [if_pos hc]; exact Or.inr rfl
      · rw [if_neg hc]; exact Or.inl rfl
    have hmem : u = pickMinF v b q ∨ u ∈ t := by
      rcases hu with hub | huqt
      · left
        by_cases hq : q = u
        · unfold pickMinF
          by_cases hc : v q < v b
          · rw [if_pos hc]; exact hq.symm
          · rw [if_neg hc]; exact hub
        · have h1 : v u < v q := hlt q (Or.inr (List.mem_cons_self q t)) hq
          have h2 : ¬ v q < v b := by rw [← hub]; exact lt_asymm h1
          unfold pickMinF
          rw [if_neg h2]
          exact hub
      · rcases List.mem_cons.mp huqt with huq | hut
        · left
          by_cases hb : b = u
          · unfold pickMinF
            by_cases hc : v q < v b
            · rw [if_pos hc]; exact huq
            · rw [if_neg hc]; exact hb.symm
          · have h1 : v u < v b := hlt b (Or.inl rfl) hb
            rw [huq] at h1
            unfold pickMinF
            rw [if_pos h1]
            exact huq
        · exact Or.inr hut
    apply ih (pickMinF v b q) u hmem
    intro p hp hpu
    rcases hp with hp | hp
    · subst hp
      rcases hbq with h | h
      · rw [h] at hpu ⊢
        exact hlt b (Or.inl rfl) hpu
      · rw [h] at hpu ⊢
        exact hlt q (Or.inr (List.mem_cons_self q t)) hpu
    · exact hlt p (Or.inr (List.mem_cons_of_mem q hp)) hpu

theorem pickMaxF_eq_pickMinF (v : Nat × Nat → ℤ) :
    pickMaxF v = pickMinF fun p => -(v p) := by
  funext b p
  unfold pickMaxF pickMinF
  by_cases h : v b < v p
  · rw [if_pos h, if_pos (by simpa using h)]
  · rw [if_neg h, if_neg (by simpa using h)]

theorem minLocRC_isMin (m : Mat) : IsMinAt m (minLocRC m) := by
  intro r hr c hc
  exact (foldl_pickMinF_le (fun p => m.entry p.1 p.2) (scanRC m) (0, 0)).2 (r, c)
    (mem_scanRC.mpr ⟨hr, hc⟩)

theorem minLocRC_unique (m : Mat) (u : Nat × Nat) (hu : StrictMinAt m u) :
    minLocRC m = u := by
  obtain ⟨h1, h2, h3⟩ := hu
  apply foldl_pickMinF_unique
  · exact Or.inr (mem_scanRC.mpr ⟨h1, h2⟩)
  · intro p hp hpu
    have hpb : p.1 < m.rows ∧ p.2 < m.cols := by
      rcases hp with hp | hp
      · subst hp
        exact ⟨Nat.pos_of_ne_zero (by omega), Nat.pos_of_ne_zero (by omega)⟩
      · exact mem_scanRC.mp hp
    exact h3 p.1 hpb.1 p.2 hpb.2 hpu

theorem maxLocRC_isMax (m : Mat) : IsMaxAt m (maxLocRC m) := by
  intro r hr c hc
  have h := (foldl_pickMinF_le (fun p => -(m.entry p.1 p.2)) (scanRC m) (0, 0)).2 (r, c)
    (mem_scanRC.mpr ⟨hr, hc⟩)
  have hrw : maxLocRC m = (scanRC m).foldl (pickMinF fun p => -(m.entry p.1 p.2)) (0, 0) := by
    unfold maxLocRC
    rw [pickMaxF_eq_pickMinF]
  rw [hrw]
  simpa using h

theorem maxLocRC_unique (m : Mat) (u : Nat × Nat) (hu : StrictMaxAt m u) :
    maxLocRC m = u := by
  obtain ⟨h1, h2, h3⟩ := hu
  have hrw : maxLocRC m = (scanRC m).foldl (pickMinF fun p => -(m.entry p.1 p.2)) (0, 0) := by
    unfold maxLocRC
    rw [pickMaxF_eq_pickMinF]
  rw [hrw]
  apply foldl_pickMinF_unique
  · exact Or.inr (mem_scanRC.mpr ⟨h1, h2⟩)
  · intro p hp hpu
    have hpb : p.1 < m.rows ∧ p.2 < m.cols := by
      rcases hp with hp | hp
      · subst hp
        exact ⟨Nat.pos_of_ne_zero (by omega), Nat.pos_of_ne_zero (by omega)⟩
      · exact mem_scanRC.mp hp
    simpa using h3 p.1 hpb.1 p.2 hpb.2 hpu

/-! Helper lemmas: NumPy indexing. -/

theorem npGet_inb (m : Mat) (a b : Nat) (ha : a < m.rows) (hb : b < m.cols) :
    npGet m (a : ℤ) (b : ℤ) = Except.ok (m.entry a b) := by
  unfold npGet
  rw [if_pos ⟨by omega, by exact_mod_cast ha, by omega, by exact_mod_cast hb⟩]
  have h1 : ((a : ℤ) % (m.rows : ℤ)).toNat = a := by
    rw [Int.emod_eq_of_lt (Int.natCast_nonneg a) (by exact_mod_cast ha)]
    exact Int.toNat_natCast a
  have h2 : ((b : ℤ) % (m.cols : ℤ)).toNat = b := by
    rw [Int.emod_eq_of_lt (Int.natCast_nonneg b) (by exact_mod_cast hb)]
    exact Int.toNat_natCast b
  rw [h1, h2]

theorem npGet_isOk (m : Mat) (i j : ℤ)
    (h : -(m.rows : ℤ) ≤ i ∧ i < (m.rows : ℤ) ∧ -(m.cols : ℤ) ≤ j ∧ j < (m.cols : ℤ)) :
    npGet m i j =
      Except.ok (m.entry ((i % (m.rows : ℤ)).toNat) ((j % (m.cols : ℤ)).toNat)) := by
  unfold npGet
  rw [if_pos h]

theorem npGet_err (m : Mat) (i j : ℤ)
    (h : ¬(-(m.rows : ℤ) ≤ i ∧ i < (m.rows : ℤ) ∧ -(m.cols : ℤ) ≤ j ∧ j < (m.cols : ℤ))) :
    npGet m i j = Except.error PyError.IndexError := by
  unfold npGet
  rw [if_neg h]

/-! Helper lemmas: the slice loop. -/

theorem stackLoop_ok {α : Type} (f : Nat → Except PyError α) :
    ∀ (n : Nat) (l : List α), stackLoop f n = Except.ok l →
      l.length = n ∧ (List.range n).map f = l.map Except.ok := by
  intro n
  induction n with
  | zero =>
    intro l h
    unfold stackLoop at h
    injection h with h
    subst h
    exact ⟨rfl, rfl⟩
  | succ n ih =>
    intro l h
    unfold stackLoop at h
    cases hsl : stackLoop f n with
    | error e => rw [hsl] at h; simp at h
    | ok l0 =>
      rw [hsl] at h
      cases hf : f n with
      | error e => rw [hf] at h; simp at h
      | ok v =>
        rw [hf] at h
        simp only [] at h
        injection h with h
        subst h
        obtain ⟨hlen, hmap⟩ := ih l0 hsl
        constructor
        · simp [hlen]
        · rw [List.range_succ, List.map_append, hmap, List.map_append]
          simp [hf]

theorem stackLoop_allErr {α : Type} (f : Nat → Except PyError α) (er : PyError) :
    ∀ n, 0 < n → (∀ i, i < n → f i = Except.error er) →
      stackLoop f n = Except.error er := by
  intro n
  induction n with
  | zero => intro h _; exact absurd h (lt_irrefl 0)
  | succ n ih =>
    intro _ hall
    unfold stackLoop
    by_cases hn : 0 < n
    · rw [ih hn fun i hi => hall i (Nat.lt_succ_of_lt hi)]
    · have hn0 : n = 0 := by omega
      subst hn0
      have h0 : stackLoop f 0 = Except.ok ([] : List α) := rfl
      rw [h0, hall 0 Nat.one_pos]

/-! Helper lemmas: the SQDIFF score. -/

theorem sqdiffE_nonneg (img tmpl : Mat) (r c : Nat) : 0 ≤ sqdiffE img tmpl r c := by
  unfold sqdiffE
  apply Finset.sum_nonneg
  intro i _
  apply Finset.sum_nonneg
  intro j _
  positivity

theorem sqdiffE_zero_of_contains (img tmpl : Mat) (r c : Nat)
    (h : containsAt img tmpl r c) : sqdiffE img tmpl r c = 0 := by
  unfold sqdiffE
  apply Finset.sum_eq_zero
  intro i hi
  apply Finset.sum_eq_zero
  intro j hj
  rw [h.2.2 i (Finset.mem_range.mp hi) j (Finset.mem_range.mp hj)]
  ring

/-! Helper lemmas: matchTemplate shape handling. -/

theorem matchTemplate_ok (P : CorrPrimitive) (code : Nat) (img tmpl : Mat)
    (hc : code < 6) (ht1 : 0 < tmpl.rows) (ht2 : 0 < tmpl.cols)
    (h1 : tmpl.rows ≤ img.rows) (h2 : tmpl.cols ≤ img.cols) :
    matchTemplate P code img tmpl = Except.ok (surfaceOf P code img tmpl) := by
  unfold matchTemplate
  rw [if_neg (by omega), if_neg (by omega), if_neg (by omega)]

theorem matchTemplate_shapeErr (P : CorrPrimitive) (code : Nat) (img tmpl : Mat)
    (hc : code < 6) (hbig : img.rows < tmpl.rows ∨ img.cols < tmpl.cols) :
    matchTemplate P code img tmpl = Except.error PyError.ShapeError := by
  unfold matchTemplate
  rw [if_neg (by omega)]
  by_cases he : img.rows = 0 ∨ img.cols = 0 ∨ tmpl.rows = 0 ∨ tmpl.cols = 0
  · rw [if_pos he]
  · rw [if_neg he, if_pos hbig]

/-- C2: for a correlation surface S and a peak location (x, y) off the
border of S, with strictly positive values at (x, y) and its four
axis-neighbors, subpixel_peak returns exactly the per-axis log-parabola
estimate
x + (ln S[x-1,y] - ln S[x+1,y]) / (2 ln S[x-1,y] + 2 ln S[x+1,y] - 4 ln S[x,y])
and
y + (ln S[x,y-1] - ln S[x,y+1]) / (2 ln S[x,y-1] - 4 ln S[x,y] + 2 ln S[x,y+1]),
the first coordinate indexing the first axis of S. -/
theorem subpixel_peak_formula (S : Mat) (x y : Nat)
    (hx0 : 0 < x) (hxr : x + 1 < S.rows) (hy0 : 0 < y) (hyc : y + 1 < S.cols)
    (hp0 : 0 < S.entry x y) (hp1 : 0 < S.entry (x - 1) y) (hp2 : 0 < S.entry (x + 1) y)
    (hp3 : 0 < S.entry x (y - 1)) (hp4 : 0 < S.entry x (y + 1)) :
    subpixel_peak (fun q : ℤ => Real.log (q : ℝ)) (x, y) S =
      Except.ok
        ((x : ℝ) +
            (Real.log ((S.entry (x - 1) y : ℤ) : ℝ) - Real.log ((S.entry (x + 1) y : ℤ) : ℝ)) /
              (2 * Real.log ((S.entry (x - 1) y : ℤ) : ℝ) +
                2 * Real.log ((S.entry (x + 1) y : ℤ) : ℝ) -
                4 * Real.log ((S.entry x y : ℤ) : ℝ)),
         (y : ℝ) +
            (Real.log ((S.entry x (y - 1) : ℤ) : ℝ) - Real.log ((S.entry x (y + 1) : ℤ) : ℝ)) /
              (2 * Real.log ((S.entry x (y - 1) : ℤ) : ℝ) -
                4 * Real.log ((S.entry x y : ℤ) : ℝ) +
                2 * Real.log ((S.entry x (y + 1) : ℤ) : ℝ))) := by
  have e1 : ((x, y).1 : ℤ) - 1 = ((x - 1 : ℕ) : ℤ) := by
    simp only []
    omega
  have e2 : ((x, y).1 : ℤ) + 1 = ((x + 1 : ℕ) : ℤ) := by
    simp only []
    omega
  have e3 : ((x, y).2 : ℤ) - 1 = ((y - 1 : ℕ) : ℤ) := by
    simp only []
    omega
  have e4 : ((x, y).2 : ℤ) + 1 = ((y + 1 : ℕ) : ℤ) := by
    simp only []
    omega
  have r1 : npGet S ((x - 1 : ℕ) : ℤ) ((x, y).2 : ℤ) = Except.ok (S.entry (x - 1) y) :=
    npGet_inb S (x - 1) y (by omega) (by omega)
  have r2 : npGet S ((x + 1 : ℕ) : ℤ) ((x, y).2 : ℤ) = Except.ok (S.entry (x + 1) y) :=
    npGet_inb S (x + 1) y (by omega) (by omega)
  have r3 : npGet S ((x, y).1 : ℤ) ((x, y).2 : ℤ) = Except.ok (S.entry x y) :=
    npGet_inb S x y (by omega) (by omega)
  have r4 : npGet S ((x, y).1 : ℤ) ((y - 1 : ℕ) : ℤ) = Except.ok (S.entry x (y - 1)) :=
    npGet_inb S x (y - 1) (by omega) (by omega)
  have r5 : npGet S ((x, y).1 : ℤ) ((y + 1 : ℕ) : ℤ) = Except.ok (S.entry x (y + 1)) :=
    npGet_inb S x (y + 1) (by omega) (by omega)
  unfold subpixel_peak
  rw [e1, e2, e3, e4]
  simp only [r1, r2, r3, r4, r5]

/-- Witness for subpixel_peak_formula: the concrete surface S0 with the
interior peak (1, 1) satisfies all hypotheses and gets the log-parabola
estimate. -/
theorem subpixel_peak_formula_witness :
    (0 < 1 ∧ 1 + 1 < S0.rows ∧ 0 < 1 ∧ 1 + 1 < S0.cols ∧ 0 < S0.entry 1 1 ∧
      0 < S0.entry (1 - 1) 1 ∧ 0 < S0.entry (1 + 1) 1 ∧ 0 < S0.entry 1 (1 - 1) ∧
      0 < S0.entry 1 (1 + 1)) ∧
    subpixel_peak (fun q : ℤ => Real.log (q : ℝ)) (1, 1) S0 =
      Except.ok
        (((1 : ℕ) : ℝ) +
            (Real.log ((S0.entry (1 - 1) 1 : ℤ) : ℝ) - Real.log ((S0.entry (1 + 1) 1 : ℤ) : ℝ)) /
              (2 * Real.log ((S0.entry (1 - 1) 1 : ℤ) : ℝ) +
                2 * Real.log ((S0.entry (1 + 1) 1 : ℤ) : ℝ) -
                4 * Real.log ((S0.entry 1 1 : ℤ) : ℝ)),
         ((1 : ℕ) : ℝ) +
            (Real.log ((S0.entry 1 (1 - 1) : ℤ) : ℝ) - Real.log ((S0.entry 1 (1 + 1) : ℤ) : ℝ)) /
              (2 * Real.log ((S0.entry 1 (1 - 1) : ℤ) : ℝ) -
                4 * Real.log ((S0.entry 1 1 : ℤ) : ℝ) +
                2 * Real.log ((S0.entry 1 (1 + 1) : ℤ) : ℝ))) :=
  ⟨⟨by decide, by decide, by decide, by decide, by decide, by decide, by decide, by decide,
    by decide⟩,
   subpixel_peak_formula S0 1 1 (by decide) (by decide) (by decide) (by decide) (by decide)
     (by decide) (by decide) (by decide) (by decide)⟩

/-- C4 (amended): at a peak (x, y) read by subpixel_peak, an upper-border
peak (x + 1 or y + 1 past the end of the axis indexed by that coordinate)
raises IndexError; any other peak, including one on the lower border
(x = 0 or y = 0, where NumPy negative indexing silently wraps to the
opposite edge) and regardless of the sign of the neighboring values (np.log
of a non-positive value yields nan or -inf without raising), raises no
error at all.  No DomainError-style guard exists. -/
theorem subpixel_peak_border {K : Type} [Field K] (lg : ℤ → K) (S : Mat) (x y : Nat)
    (hx : x < S.rows) (hy : y < S.cols) :
    (S.rows ≤ x + 1 ∨ S.cols ≤ y + 1 →
      subpixel_peak lg (x, y) S = Except.error PyError.IndexError) ∧
    (x + 1 < S.rows → y + 1 < S.cols → exOk (subpixel_peak lg (x, y) S) = true) := by
  constructor
  · intro hb
    unfold subpixel_peak
    dsimp only
    by_cases hxr : S.rows ≤ x + 1
    · have r1 := npGet_isOk S ((x : ℤ) - 1) (y : ℤ) ⟨by omega, by omega, by omega, by omega⟩
      have r2 := npGet_err S ((x : ℤ) + 1) (y : ℤ) (by omega)
      simp only [r1, r2]
    · have hyc : S.cols ≤ y + 1 := by
        rcases hb with h | h
        · exact absurd h hxr
        · exact h
      have r1 := npGet_isOk S ((x : ℤ) - 1) (y : ℤ) ⟨by omega, by omega, by omega, by omega⟩
      have r2 := npGet_isOk S ((x : ℤ) + 1) (y : ℤ) ⟨by omega, by omega, by omega, by omega⟩
      have r3 := npGet_isOk S (x : ℤ) (y : ℤ) ⟨by omega, by omega, by omega, by omega⟩
      have r4 := npGet_isOk S (x : ℤ) ((y : ℤ) - 1) ⟨by omega, by omega, by omega, by omega⟩
      have r5 := npGet_err S (x : ℤ) ((y : ℤ) + 1) (by omega)
      simp only [r1, r2, r3, r4, r5]
  · intro h1 h2
    unfold subpixel_peak
    dsimp only
    have r1 := npGet_isOk S ((x : ℤ) - 1) (y : ℤ) ⟨by omega, by omega, by omega, by omega⟩
    have r2 := npGet_isOk S ((x : ℤ) + 1) (y : ℤ) ⟨by omega, by omega, by omega, by omega⟩
    have r3 := npGet_isOk S (x : ℤ) (y : ℤ) ⟨by omega, by omega, by omega, by omega⟩
    have r4 := npGet_isOk S (x : ℤ) ((y : ℤ) - 1) ⟨by omega, by omega, by omega, by omega⟩
    have r5 := npGet_isOk S (x : ℤ) ((y : ℤ) + 1) ⟨by omega, by omega, by omega, by omega⟩
    simp only [r1, r2, r3, r4, r5]
    rfl

/-- Witness for subpixel_peak_border: on S0 a peak in the last row raises
IndexError, a strictly interior peak raises nothing. -/
theorem subpixel_peak_border_witness :
    (2 < S0.rows ∧ 1 < S0.cols ∧ S0.rows ≤ 2 + 1) ∧
    subpixel_peak (fun q : ℤ => Real.log (q : ℝ)) (2, 1) S0 =
      Except.error PyError.IndexError :=
  ⟨⟨by decide, by decide, by decide⟩,
   (subpixel_peak_border (fun q : ℤ => Real.log (q : ℝ)) S0 2 1 (by decide) (by decide)).1
     (Or.inl (by decide))⟩

set_option maxRecDepth 40000 in
/-- Counterexample to C4 as stated: on the TM_SQDIFF pipeline for arrB and
tmpl1 the raw extremum of the correlation surface lies on the border
(minimum at row 1, column 0, so the point (x, y) = (0, 1) has no x - 1
neighbor), yet requesting sub-pixel refinement raises no error of any
kind: NumPy evaluates results[-1, 1] by silently wrapping to the opposite
edge of the surface, and template_matching returns a refined displacement. -/
theorem tm_c4_cx :
    minLocRC surfB = (1, 0) ∧
    exOk (template_matching (fun q : ℤ => Real.log (q : ℝ)) P_sq arrB tmpl1
      "cv.TM_SQDIFF" true) = true := by
  constructor
  · decide
  · decide

/-- C1 (amended): with subpixel false, template_matching returns exactly
the integer coordinates (x, y) = (column, row) of the position reported by
the correlation primitive for the global minimum of the correlation surface
when the method is in the SQDIFF family, and for the global maximum for
every other enumerated method; that position attains the global extremum,
and is THE global extremum whenever the extremum is strict.  In particular,
for method TM_SQDIFF, a slice containing the template shifted by the exact
integers (dx, dy) whose every other offset has a nonzero
sum-of-squared-differences score returns exactly (dx, dy). -/
theorem tm_c1 {K : Type} [Field K] (lg : ℤ → K) (P : CorrPrimitive)
    (arr tmpl : Mat) (meth : String) (code dx dy : Nat)
    (hev : evalMethod meth = some code) (hc : code < 6)
    (ht1 : 0 < tmpl.rows) (ht2 : 0 < tmpl.cols)
    (h1 : tmpl.rows ≤ arr.rows) (h2 : tmpl.cols ≤ arr.cols)
    (hP : ∀ r c, P 0 arr tmpl r c = sqdiffE arr tmpl r c) :
    ((code = 0 ∨ code = 1) →
      template_matching lg P arr tmpl meth false =
        Except.ok (((minLocRC (surfaceOf P code arr tmpl)).2 : K),
                   ((minLocRC (surfaceOf P code arr tmpl)).1 : K)) ∧
      IsMinAt (surfaceOf P code arr tmpl) (minLocRC (surfaceOf P code arr tmpl)) ∧
      (∀ u, StrictMinAt (surfaceOf P code arr tmpl) u →
        minLocRC (surfaceOf P code arr tmpl) = u)) ∧
    (¬(code = 0 ∨ code = 1) →
      template_matching lg P arr tmpl meth false =
        Except.ok (((maxLocRC (surfaceOf P code arr tmpl)).2 : K),
                   ((maxLocRC (surfaceOf P code arr tmpl)).1 : K)) ∧
      IsMaxAt (surfaceOf P code arr tmpl) (maxLocRC (surfaceOf P code arr tmpl)) ∧
      (∀ u, StrictMaxAt (surfaceOf P code arr tmpl) u →
        maxLocRC (surfaceOf P code arr tmpl) = u)) ∧
    (meth = "cv.TM_SQDIFF" →
      containsAt arr tmpl dy dx →
      (∀ r, r < (surfaceOf P 0 arr tmpl).rows →
        ∀ c, c < (surfaceOf P 0 arr tmpl).cols →
          (r, c) ≠ (dy, dx) → sqdiffE arr tmpl r c ≠ 0) →
      template_matching lg P arr tmpl meth false = Except.ok ((dx : K), (dy : K))) := by
  have hmt := matchTemplate_ok P code arr tmpl hc ht1 ht2 h1 h2
  have hrw : template_matching lg P arr tmpl meth false =
      (if code = 0 ∨ code = 1 then
        Except.ok ((((minLocRC (surfaceOf P code arr tmpl)).2 : ℕ) : K),
                   (((minLocRC (surfaceOf P code arr tmpl)).1 : ℕ) : K))
      else
        Except.ok ((((maxLocRC (surfaceOf P code arr tmpl)).2 : ℕ) : K),
                   (((maxLocRC (surfaceOf P code arr tmpl)).1 : ℕ) : K))) := by
    unfold template_matching
    simp only [hev, hmt]
    by_cases h01 : code = 0 ∨ code = 1
    · rw [if_pos h01, if_pos h01, if_neg Bool.false_ne_true]
    · rw [if_neg h01, if_neg h01, if_neg Bool.false_ne_true]
  refine ⟨?_, ?_, ?_⟩
  · intro h01
    rw [hrw, if_pos h01]
    exact ⟨rfl, minLocRC_isMin _, fun u hu => minLocRC_unique _ u hu⟩
  · intro h01
    rw [hrw, if_neg h01]
    exact ⟨rfl, maxLocRC_isMax _, fun u hu => maxLocRC_unique _ u hu⟩
  · intro hm hcont hnz
    have hcode : code = 0 := by
      subst hm
      have h0 : evalMethod "cv.TM_SQDIFF" = some 0 := rfl
      rw [h0] at hev
      injection hev with h
      omega
    subst hcode
    have hdy : dy < (surfaceOf P 0 arr tmpl).rows := by
      have h := hcont.1
      show dy < arr.rows - tmpl.rows + 1
      omega
    have hdx : dx < (surfaceOf P 0 arr tmpl).cols := by
      have h := hcont.2.1
      show dx < arr.cols - tmpl.cols + 1
      omega
    have hzero : (surfaceOf P 0 arr tmpl).entry dy dx = 0 := by
      show P 0 arr tmpl dy dx = 0
      rw [hP]
      exact sqdiffE_zero_of_contains arr tmpl dy dx hcont
    have hstrict : StrictMinAt (surfaceOf P 0 arr tmpl) (dy, dx) := by
      refine ⟨hdy, hdx, ?_⟩
      intro r hr c hc2 hne
      have hge : 0 ≤ sqdiffE arr tmpl r c := sqdiffE_nonneg arr tmpl r c
      have hne0 : sqdiffE arr tmpl r c ≠ 0 := hnz r hr c hc2 hne
      have hen : (surfaceOf P 0 arr tmpl).entry r c = sqdiffE arr tmpl r c := hP r c
      have hzero2 : (surfaceOf P 0 arr tmpl).entry (dy, dx).1 (dy, dx).2 = 0 := hzero
      rw [hzero2, hen]
      exact lt_of_le_of_ne hge (Ne.symm hne0)
    have hloc : minLocRC (surfaceOf P 0 arr tmpl) = (dy, dx) :=
      minLocRC_unique _ _ hstrict
    rw [hrw, if_pos (Or.inl rfl), hloc]

/-- Counterexample to C1 as stated: the all-zero 2x2 slice arrT contains
the all-zero 1x1 template tmpl0 shifted by (dx, dy) = (1, 1) within the
slice bounds, yet template_matching with method TM_SQDIFF and subpixel
false returns (0, 0), not (1, 1): the SSD surface is identically zero and
the primitive reports the first of the tied minima. -/
theorem tm_c1_cx :
    containsAt arrT tmpl0 1 1 ∧
    template_matching (fun q : ℤ => Real.log (q : ℝ)) P_sq arrT tmpl0
      "cv.TM_SQDIFF" false = Except.ok (((0 : ℕ) : ℝ), ((0 : ℕ) : ℝ)) ∧
    ((((0 : ℕ) : ℝ), ((0 : ℕ) : ℝ)) : ℝ × ℝ) ≠ (((1 : ℕ) : ℝ), ((1 : ℕ) : ℝ)) := by
  refine ⟨by decide, by rfl, by simp⟩

/-- Witness for tm_c1: the 3x3 slice arrU contains tmpl1 exactly at
(dx, dy) = (2, 1) and every other offset has nonzero SSD score, and
template_matching with TM_SQDIFF and subpixel false returns exactly
(2, 1). -/
theorem tm_c1_w :
    evalMethod "cv.TM_SQDIFF" = some 0 ∧
    containsAt arrU tmpl1 1 2 ∧
    template_matching (fun q : ℤ => Real.log (q : ℝ)) P_sq arrU tmpl1
      "cv.TM_SQDIFF" false = Except.ok (((2 : ℕ) : ℝ), ((1 : ℕ) : ℝ)) := by
  refine ⟨by decide, by decide, ?_⟩
  exact (tm_c1 (fun q : ℤ => Real.log (q : ℝ)) P_sq arrU tmpl1 "cv.TM_SQDIFF" 0 2 1
    rfl (by decide) (by decide) (by decide) (by decide) (by decide)
    (fun r c => rfl)).2.2 rfl (by decide) (by decide)

/-- C3: when template_matching_stack returns without error, it returns one
displacement per slice along the stack axis, in slice order, the i-th
computed by template_matching from the i-th slice alone. -/
theorem tm_stack_c3 {K : Type} [Field K] (lg : ℤ → K) (P : CorrPrimitive)
    (A : Arr3) (tmpl : Mat) (k : Nat) (m : String) (sp : Bool) (l : List (K × K))
    (h : template_matching_stack lg P A tmpl (PyVal.int k) m sp = Except.ok l) :
    l.length = A.dim k ∧
    (List.range (A.dim k)).map
        (fun i => template_matching lg P (sliceAt A k i) tmpl m sp) =
      l.map Except.ok := by
  unfold template_matching_stack at h
  dsimp only at h
  by_cases hk : k < 3
  · rw [if_pos hk] at h
    exact stackLoop_ok _ _ l h
  · rw [if_neg hk] at h
    exact Except.noConfusion h

/-- Witness for tm_stack_c3: a one-slice stack produces the one-element
drift series, computed from slice 0. -/
theorem tm_stack_c3_w :
    template_matching_stack lg0 P0 A0 tmpl0 (PyVal.int 0) "cv.TM_SQDIFF" false =
      Except.ok [(((0 : ℕ) : ℚ), ((0 : ℕ) : ℚ))] ∧
    ([(((0 : ℕ) : ℚ), ((0 : ℕ) : ℚ))] : List (ℚ × ℚ)).length = A0.dim 0 ∧
    (List.range (A0.dim 0)).map
        (fun i => template_matching lg0 P0 (sliceAt A0 0 i) tmpl0 "cv.TM_SQDIFF" false) =
      [(((0 : ℕ) : ℚ), ((0 : ℕ) : ℚ))].map Except.ok := by
  have h : template_matching_stack lg0 P0 A0 tmpl0 (PyVal.int 0) "cv.TM_SQDIFF" false =
      Except.ok [(((0 : ℕ) : ℚ), ((0 : ℕ) : ℚ))] := by decide
  exact ⟨h, tm_stack_c3 lg0 P0 A0 tmpl0 0 "cv.TM_SQDIFF" false _ h⟩

/-- C5 (amended): a method string that does not evaluate to a value (an
unknown name, raising NameError, modelled as ConfigurationError) makes
template_matching fail without returning a displacement; but a method
string outside the enumerated set of names that evaluates to an enumerated
integer constant is accepted: "5" behaves exactly as
"cv.TM_CCOEFF_NORMED". -/
theorem tm_c5 {K : Type} [Field K] (lg : ℤ → K) (P : CorrPrimitive)
    (arr tmpl : Mat) (s : String) (sp : Bool)
    (h : evalMethod s = Option.none) :
    template_matching lg P arr tmpl s sp = Except.error PyError.ConfigurationError ∧
    template_matching lg P arr tmpl "5" sp =
      template_matching lg P arr tmpl "cv.TM_CCOEFF_NORMED" sp := by
  constructor
  · unfold template_matching
    rw [h]
  · rfl

/-- Witness for tm_c5: the unknown name TM_banana fails with
ConfigurationError while "5" matches the behavior of the documented
TM_CCOEFF_NORMED name. -/
theorem tm_c5_w :
    evalMethod "TM_banana" = Option.none ∧
    (template_matching (fun q : ℤ => Real.log (q : ℝ)) P_sq arrT tmpl0 "TM_banana"
        false = Except.error PyError.ConfigurationError ∧
      template_matching (fun q : ℤ => Real.log (q : ℝ)) P_sq arrT tmpl0 "5" false =
        template_matching (fun q : ℤ => Real.log (q : ℝ)) P_sq arrT tmpl0
          "cv.TM_CCOEFF_NORMED" false) :=
  ⟨rfl, tm_c5 (fun q : ℤ => Real.log (q : ℝ)) P_sq arrT tmpl0 "TM_banana" false rfl⟩

/-- Counterexample to C5 as stated: the method string "5" is outside the
enumerated set of method names, yet template_matching does not fail with
ConfigurationError: eval yields the integer 5, the TM_CCOEFF_NORMED
constant, and a displacement is returned. -/
theorem tm_c5_cx :
    ("5" ∉ ["cv.TM_SQDIFF", "cv.TM_SQDIFF_NORMED", "cv.TM_CCORR",
      "cv.TM_CCORR_NORMED", "cv.TM_CCOEFF", "cv.TM_CCOEFF_NORMED"]) ∧
    template_matching lg0 P0 arrT tmpl0 "5" false =
      Except.ok (((1 : ℕ) : ℚ), ((1 : ℕ) : ℚ)) := by
  exact ⟨by decide, by decide⟩

/-- A template exceeding the slice in either dimension makes a single
template_matching call fail with ShapeError (for any evaluable method). -/
theorem tm_shapeErr {K : Type} [Field K] (lg : ℤ → K) (P : CorrPrimitive)
    (img tmpl : Mat) (meth : String) (code : Nat) (sp : Bool)
    (hev : evalMethod meth = some code) (hc : code < 6)
    (hbig : img.rows < tmpl.rows ∨ img.cols < tmpl.cols) :
    template_matching lg P img tmpl meth sp = Except.error PyError.ShapeError := by
  unfold template_matching
  simp only [hev, matchTemplate_shapeErr P code img tmpl hc hbig]

/-- C6: a template with a dimension exceeding the corresponding slice
dimension makes the whole per-stack computation fail with ShapeError, and
every slice fails the same way, so no partial drift series exists. -/
theorem tm_stack_c6 {K : Type} [Field K] (lg : ℤ → K) (P : CorrPrimitive)
    (A : Arr3) (tmpl : Mat) (k code : Nat) (m : String) (sp : Bool)
    (hev : evalMethod m = some code) (hc : code < 6) (hk : k < 3)
    (hn : 0 < A.dim k)
    (hbig : (sliceAt A k 0).rows < tmpl.rows ∨ (sliceAt A k 0).cols < tmpl.cols) :
    template_matching_stack lg P A tmpl (PyVal.int k) m sp =
      Except.error PyError.ShapeError ∧
    ∀ i, i < A.dim k →
      template_matching lg P (sliceAt A k i) tmpl m sp =
        Except.error PyError.ShapeError := by
  have hdims : ∀ i, (sliceAt A k i).rows = (sliceAt A k 0).rows ∧
      (sliceAt A k i).cols = (sliceAt A k 0).cols := by
    intro i
    unfold sliceAt
    by_cases h0 : k = 0
    · rw [if_pos h0, if_pos h0]
      exact ⟨rfl, rfl⟩
    · rw [if_neg h0, if_neg h0]
      by_cases h1 : k = 1
      · rw [if_pos h1, if_pos h1]
        exact ⟨rfl, rfl⟩
      · rw [if_neg h1, if_neg h1]
        exact ⟨rfl, rfl⟩
  have hall : ∀ i, i < A.dim k →
      template_matching lg P (sliceAt A k i) tmpl m sp =
        Except.error PyError.ShapeError := by
    intro i _
    apply tm_shapeErr lg P _ tmpl m code sp hev hc
    rcases hbig with h | h
    · left
      rw [(hdims i).1]
      exact h
    · right
      rw [(hdims i).2]
      exact h
  constructor
  · unfold template_matching_stack
    dsimp only
    rw [if_pos hk]
    exact stackLoop_allErr _ _ (A.dim k) hn hall
  · exact hall

/-- Witness for tm_stack_c6: a 3x3 template against a stack of 2x2 slices
fails with ShapeError. -/
theorem tm_stack_c6_w :
    (evalMethod "cv.TM_SQDIFF" = some 0 ∧ 0 < 6 ∧ 0 < 3 ∧ 0 < A1.dim 0 ∧
      (sliceAt A1 0 0).rows < tmplBig.rows) ∧
    template_matching_stack lg0 P_sq A1 tmplBig (PyVal.int 0) "cv.TM_SQDIFF" true =
      Except.error PyError.ShapeError :=
  ⟨⟨rfl, by decide, by decide, by decide, by decide⟩,
   (tm_stack_c6 lg0 P_sq A1 tmplBig 0 0 "cv.TM_SQDIFF" true rfl (by decide)
     (by decide) (by decide) (Or.inl (by decide))).1⟩

/-- The floored fractional limit dim * 2 / 5 is the integer division
dim * 2 / 5: the lower bound is an integer obtained by flooring. -/
theorem roiFloor_two (d : Nat) : roiFloor ((d : ℚ) * 2 / 5) = d * 2 / 5 := by
  unfold roiFloor
  rw [Int.floor_toNat]
  have h : (d : ℚ) * 2 / 5 = ((d * 2 : ℕ) : ℚ) / ((5 : ℕ) : ℚ) := by
    push_cast
    ring
  rw [h, Nat.floor_div_nat, Nat.floor_natCast]

/-- The floored fractional limit dim * 3 / 5 is the integer division
dim * 3 / 5: the upper bound is an integer obtained by flooring. -/
theorem roiFloor_three (d : Nat) : roiFloor ((d : ℚ) * 3 / 5) = d * 3 / 5 := by
  unfold roiFloor
  rw [Int.floor_toNat]
  have h : (d : ℚ) * 3 / 5 = ((d * 3 : ℕ) : ℚ) / ((5 : ℕ) : ℚ) := by
    push_cast
    ring
  rw [h, Nat.floor_div_nat, Nat.floor_natCast]

/-- C7: with no explicit template, guess_templatedata derives the default
template as the central region whose per-spatial-axis integer index bounds
are exactly lo = floor(dim * 2/5) and hi = floor(dim * 3/5), here written
as the integer divisions dim * 2 / 5 and dim * 3 / 5. -/
theorem guess_c7 (ds : DataSet) (xi yi : Nat) (hx : xi < 3) (hy : yi < 3) :
    guess_templatedata ds (PyVal.int xi) (PyVal.int yi) =
      Except.ok (roiRegion ds xi yi
        (ds.arr.dim xi * 2 / 5) (ds.arr.dim xi * 3 / 5)
        (ds.arr.dim yi * 2 / 5) (ds.arr.dim yi * 3 / 5)) := by
  have hax : get_axis_index ds (PyVal.int xi) = Except.ok xi := by
    unfold get_axis_index
    dsimp only
    rw [if_pos hx]
  have hay : get_axis_index ds (PyVal.int yi) = Except.ok yi := by
    unfold get_axis_index
    dsimp only
    rw [if_pos hy]
  unfold guess_templatedata
  simp only [hax, hay]
  rw [roiFloor_two, roiFloor_three, roiFloor_two, roiFloor_three]

/-- Witness for guess_c7 at the concrete dataset ds0 with spatial axes 1
and 2 (dimension 3 each: bounds floor(6/5) = 1 and floor(9/5) = 1). -/
theorem guess_c7_w :
    (1 < 3 ∧ 2 < 3) ∧
    guess_templatedata ds0 (PyVal.int 1) (PyVal.int 2) =
      Except.ok (roiRegion ds0 1 2
        (ds0.arr.dim 1 * 2 / 5) (ds0.arr.dim 1 * 3 / 5)
        (ds0.arr.dim 2 * 2 / 5) (ds0.arr.dim 2 * 3 / 5)) :=
  ⟨⟨by decide, by decide⟩, guess_c7 ds0 1 2 (by decide) (by decide)⟩

/-- The state-passing slice loop never changes the store and computes the
same list as the pure slice loop over the stored stack and template. -/
theorem stLoopAux_spec {K : Type} [Field K] (lg : ℤ → K) (P : CorrPrimitive)
    (m : String) (sp : Bool) (k : Nat) :
    ∀ (n : Nat) (σ : Store),
      (stLoopAux lg P m sp k n σ).2 = σ ∧
      (stLoopAux lg P m sp k n σ).1 =
        stackLoop (fun i => template_matching lg P (sliceAt σ.1 k i) σ.2 m sp) n := by
  intro n
  induction n with
  | zero => intro σ; exact ⟨rfl, rfl⟩
  | succ n ih =>
    intro σ
    obtain ⟨h2, h1⟩ := ih σ
    have hpair : stLoopAux lg P m sp k n σ =
        (stackLoop (fun i => template_matching lg P (sliceAt σ.1 k i) σ.2 m sp) n, σ) :=
      Prod.ext h1 h2
    cases hsl : stackLoop (fun i => template_matching lg P (sliceAt σ.1 k i) σ.2 m sp) n with
    | error e =>
      unfold stLoopAux
      rw [hpair, hsl]
      exact ⟨rfl, by unfold stackLoop; rw [hsl]⟩
    | ok l =>
      cases htm : template_matching lg P (sliceAt σ.1 k n) σ.2 m sp with
      | error e =>
        unfold stLoopAux
        rw [hpair, hsl]
        dsimp only
        rw [htm]
        exact ⟨rfl, by unfold stackLoop; rw [hsl, htm]⟩
      | ok v =>
        unfold stLoopAux
        rw [hpair, hsl]
        dsimp only
        rw [htm]
        exact ⟨rfl, by unfold stackLoop; rw [hsl, htm]⟩

/-- C8: the estimator only reads the stack and the template and has no
other side effect: the state-passing versions of template_matching_stack
and template_matching leave the store exactly as it was and return exactly
the value of the pure functions of (stack, template, method, subpixel). -/
theorem tm_stack_pure {K : Type} [Field K] (lg : ℤ → K) (P : CorrPrimitive)
    (sa : PyVal) (m : String) (sp : Bool) (σ : Store) (τ : Mat × Mat) :
    (tm_stack_st lg P sa m sp σ).2 = σ ∧
    (tm_stack_st lg P sa m sp σ).1 = template_matching_stack lg P σ.1 σ.2 sa m sp ∧
    (tm_st lg P m sp τ).2 = τ ∧
    (tm_st lg P m sp τ).1 = template_matching lg P τ.1 τ.2 m sp := by
  refine ⟨?_, ?_, rfl, rfl⟩
  · unfold tm_stack_st
    cases sa with
    | int k =>
      dsimp only
      by_cases hk : k < 3
      · rw [if_pos hk]
        exact (stLoopAux_spec lg P m sp k (σ.1.dim k) σ).1
      · rw [if_neg hk]
    | none => rfl
    | str s => rfl
  · unfold tm_stack_st template_matching_stack
    cases sa with
    | int k =>
      dsimp only
      by_cases hk : k < 3
      · rw [if_pos hk, if_pos hk]
        exact (stLoopAux_spec lg P m sp k (σ.1.dim k) σ).2
      · rw [if_neg hk, if_neg hk]
    | none => rfl
    | str s => rfl

/-- C9: the constructor accepts subpixel and method but never forwards
them: the construction result is identical for any two choices of those
arguments, and the drift series is computed by template_matching_stack on
the extracted data and template with the defaults of that method itself,
method = cv.TM_CCOEFF_NORMED and subpixel = true, and the raw stackAxisID
argument. -/
theorem drift_c9 {K : Type} [Field K] (lg : ℤ → K) (P : CorrPrimitive)
    (ds : DataSet) (t : Option DataSet2) (sa xa ya : PyVal) (sp1 sp2 : Bool)
    (m1 m2 : String) :
    Drift_init lg P (some ds) t sa xa ya sp1 m1 =
      Drift_init lg P (some ds) t sa xa ya sp2 m2 ∧
    Drift_init lg P (some ds) t sa xa ya sp1 m1 =
      (match Drift_pre ds t sa xa ya with
      | Except.error e => Except.error e
      | Except.ok pr =>
        match template_matching_stack lg P pr.1 pr.2 sa "cv.TM_CCOEFF_NORMED" true with
        | Except.error e => Except.error e
        | Except.ok dr => Except.ok ⟨pr.1, pr.2, dr⟩) :=
  ⟨rfl, rfl⟩

/-- C10: the constructor passes the raw stackAxisID to
template_matching_stack, so construction never completes for the default
None or for a string label (even one its own axis lookup resolves), and a
completed construction forces stackAxisID to be a valid integer axis
index. -/
theorem drift_c10 {K : Type} [Field K] (lg : ℤ → K) (P : CorrPrimitive)
    (d : Option DataSet) (t : Option DataSet2) (sa xa ya : PyVal) (sp : Bool)
    (m : String) :
    exOk (Drift_init lg P d t PyVal.none xa ya sp m) = false ∧
    (∀ s, exOk (Drift_init lg P d t (PyVal.str s) xa ya sp m) = false) ∧
    (exOk (Drift_init lg P d t sa xa ya sp m) = true → validStackAxis sa = true) := by
  refine ⟨?_, ?_, ?_⟩
  · cases d with
    | none => rfl
    | some ds =>
      unfold Drift_init
      dsimp only
      cases hpre : Drift_pre ds t PyVal.none xa ya with
      | error e => rfl
      | ok pr => rfl
  · intro s
    cases d with
    | none => rfl
    | some ds =>
      unfold Drift_init
      dsimp only
      cases hpre : Drift_pre ds t (PyVal.str s) xa ya with
      | error e => rfl
      | ok pr => rfl
  · intro h
    cases d with
    | none =>
      have h2 : false = true := h
      exact Bool.noConfusion h2
    | some ds =>
      unfold Drift_init at h
      dsimp only at h
      cases hpre : Drift_pre ds t sa xa ya with
      | error e =>
        rw [hpre] at h
        have h2 : false = true := h
        exact Bool.noConfusion h2
      | ok pr =>
        rw [hpre] at h
        dsimp only at h
        cases sa with
        | none =>
          have h2 : false = true := h
          exact Bool.noConfusion h2
        | str s =>
          have h2 : false = true := h
          exact Bool.noConfusion h2
        | int k =>
          by_cases hk : k < 3
          · unfold validStackAxis
            dsimp only
            exact decide_eq_true hk
          · exfalso
            have hst : template_matching_stack lg P pr.1 pr.2 (PyVal.int k)
                "cv.TM_CCOEFF_NORMED" true = Except.error PyError.IndexError := by
              unfold template_matching_stack
              dsimp only
              rw [if_neg hk]
            rw [hst] at h
            have h2 : false = true := h
            exact Bool.noConfusion h2

/-- Witness for drift_c10: a concrete construction with a valid integer
stack axis index completes, and the theorem then certifies the index. -/
theorem drift_c10_w :
    exOk (Drift_init lg0 P0 (some ds0) (some t0) (PyVal.int 0) PyVal.none PyVal.none
      false "ignored") = true ∧
    validStackAxis (PyVal.int 0) = true :=
  ⟨rfl,
   (drift_c10 lg0 P0 (some ds0) (some t0) (PyVal.int 0) PyVal.none PyVal.none
     false "ignored").2.2 rfl⟩
